import Mathlib

/-!
Shallow embedding of the magneto serial-protocol engine (magneto/constants.py,
magneto/utils.py, magneto/communication.py, magneto/magstim.py).

Bytes are modelled as `Nat` values below 256 (Python `bytes` elements are ints
in that range); byte strings are `List Nat`.  Python operations that can raise
are modelled with `Except PyExc`:
- indexing `raw[i]` out of range raises `IndexError` (`PyExc.indexErr`);
- `dict[key]` on a missing key raises `KeyError` (`PyExc.keyErr`);
- `chr(v).encode("ascii")` with `v >= 128` raises `UnicodeEncodeError`
  (`PyExc.encodeErr`), which matters for `calculate_crc`, where
  `byteify(chr(~bytesum & 0xFF))` ASCII-encodes the checksum byte.
-/

namespace Magneto

/-- A Python exception escaping one of the modelled functions. -/
inductive PyExc where
  | indexErr
  | keyErr
  | encodeErr
deriving DecidableEq, Repr

instance {ε α : Type} [DecidableEq ε] [DecidableEq α] : DecidableEq (Except ε α)
  | .error e, .error e' =>
    if h : e = e' then .isTrue (by rw [h]) else .isFalse (by simp [h])
  | .error _, .ok _ => .isFalse (by simp)
  | .ok _, .error _ => .isFalse (by simp)
  | .ok a, .ok a' =>
    if h : a = a' then .isTrue (by rw [h]) else .isFalse (by simp [h])

/-! ## Constants (magneto/constants.py) -/

def SET_POWER_A : Nat := 0x40
def SET_BASE_MODE : Nat := 0x45
def ENABLE_REMOTE_CTRL : Nat := 0x51
def DISABLE_REMOTE_CTRL : Nat := 0x52
def GET_PARAMS : Nat := 0x4A
def SET_POWER_B : Nat := 0x41
def SET_PULSE_INTERVAL : Nat := 0x43
def ENABLE_HIRES_TIME : Nat := 0x59
def DISABLE_HIRES_TIME : Nat := 0x5A

def MODE_STOPPED : Nat := 0
def MODE_ARMED : Nat := 1
def MODE_TRIGGER : Nat := 3
def MODE_BASE : Nat := 6

def PAD_BYTE : Nat := 0x40

/-- `INVALID_CMD = ord('?')` -/
def INVALID_CMD : Nat := 63

/-- `INVALID_DATA = ord('?')` — note: the same byte value as `INVALID_CMD`. -/
def INVALID_DATA : Nat := 63

/-- `SETTINGS_CONFLICT = ord('S')` -/
def SETTINGS_CONFLICT : Nat := 83

/-- `CRC_ERROR = -1` (a magneto-internal marker, not a protocol byte). -/
def CRC_ERROR : Int := -1

/-! ## Codec (magneto/utils.py) -/

/-- `calculate_crc(cmd)`: `~sum(bytes) & 0xFF`, then re-encoded through
`byteify(chr(...))`, whose ASCII encoding raises for values ≥ 128.
For `bytesum ≥ 0`, `~bytesum & 0xFF = 255 - bytesum % 256`. -/
def calculate_crc (cmd : List Nat) : Except PyExc Nat :=
  if 255 - cmd.sum % 256 < 128 then .ok (255 - cmd.sum % 256)
  else .error .encodeErr

/-- `get_mode_byte(setting)`: `chr((1 << MODE_BASE) + (1 << setting))`,
returned here as the byte value. -/
def get_mode_byte (setting : Nat) : Nat :=
  (1 <<< MODE_BASE) + (1 <<< setting)

/-- `build_command(cmd, data)`: `chr(cmd)` is ASCII-encoded (raises for
`cmd ≥ 128`), falsy data (`None` / empty) is replaced by the pad byte, and the
checksum of `code ++ data` is appended. -/
def build_command (cmd : Nat) (data : List Nat) : Except PyExc (List Nat) :=
  if 128 ≤ cmd then .error .encodeErr
  else
    match calculate_crc (cmd :: (if data = [] then [PAD_BYTE] else data)) with
    | .error e => .error e
    | .ok crc => .ok (cmd :: (if data = [] then [PAD_BYTE] else data) ++ [crc])

/-- `_check_error(resp)`: returns `None`, `INVALID_CMD`, `INVALID_DATA`,
`SETTINGS_CONFLICT` (all `int`s, modelled in `Int` since `CRC_ERROR = -1`)
or `CRC_ERROR`, following the source's branch order.  `resp[0]` / `resp[1]`
out of range raise `IndexError`; the `calculate_crc` call can raise on
re-encoding the checksum byte. -/
def checkError (resp : List Nat) : Except PyExc (Option Int) :=
  match resp.get? 0 with
  | none => .error .indexErr
  | some b0 =>
    if b0 = INVALID_CMD then .ok (some (INVALID_CMD : Int))
    else
      match resp.get? 1 with
      | none => .error .indexErr
      | some b1 =>
        if b1 = INVALID_DATA then .ok (some (INVALID_DATA : Int))
        else if b1 = SETTINGS_CONFLICT then .ok (some (SETTINGS_CONFLICT : Int))
        else
          match calculate_crc resp.dropLast with
          | .error e => .error e
          | .ok expected =>
            if resp.getLastD 0 ≠ expected then .ok (some CRC_ERROR)
            else .ok none

/-- The spec's error taxonomy (§4.1/§7): the four kinds kept distinct. -/
inductive ErrKind where
  | unrecognizedCommand
  | invalidData
  | settingsConflict
  | checksumMismatch
deriving DecidableEq, Repr

/-- The spec's `classify_error`: same branch structure and order as
`_check_error`, but recording WHICH branch fired, so that the
unrecognized-command and invalid-data classifications stay distinguishable
even though the code gives both the sentinel value `ord('?')`. -/
def classifyKind (resp : List Nat) : Except PyExc (Option ErrKind) :=
  match resp.get? 0 with
  | none => .error .indexErr
  | some b0 =>
    if b0 = INVALID_CMD then .ok (some .unrecognizedCommand)
    else
      match resp.get? 1 with
      | none => .error .indexErr
      | some b1 =>
        if b1 = INVALID_DATA then .ok (some .invalidData)
        else if b1 = SETTINGS_CONFLICT then .ok (some .settingsConflict)
        else
          match calculate_crc resp.dropLast with
          | .error e => .error e
          | .ok expected =>
            if resp.getLastD 0 ≠ expected then .ok (some .checksumMismatch)
            else .ok none

/-- The typed exception classes of magneto/utils.py. -/
inductive MagErr where
  | commandErr   -- CommandError (RuntimeError)
  | dataErr      -- DataError (ValueError)
  | configErr    -- ConfigError (ValueError)
  | crcErr       -- CRCError (RuntimeError)
deriving DecidableEq, Repr

/-- `_validate_response(resp)`: raises the typed exception selected by the
first matching comparison of `resp.err` against the error constants, in
source order; `none` means no exception raised.  The second branch compares
against `INVALID_DATA`, whose value equals `INVALID_CMD`. -/
def validateResponse (err : Option Int) : Option MagErr :=
  if err = some (INVALID_CMD : Int) then some .commandErr
  else if err = some (INVALID_DATA : Int) then some .dataErr
  else if err = some (SETTINGS_CONFLICT : Int) then some .configErr
  else if err = some CRC_ERROR then some .crcErr
  else none

/-! ## Frame extraction (magneto/communication.py) -/

/-- The `resp_lengths` dict: expected complete-response length per command
code, insertion order preserved (keys are distinct, so order is irrelevant
to lookup). -/
def resp_lengths : List (Nat × Nat) :=
  [(SET_POWER_A, 3), (SET_POWER_B, 3), (SET_PULSE_INTERVAL, 3),
   (SET_BASE_MODE, 3), (ENABLE_REMOTE_CTRL, 3), (DISABLE_REMOTE_CTRL, 3),
   (ENABLE_HIRES_TIME, 3), (DISABLE_HIRES_TIME, 3), (GET_PARAMS, 12)]

/-- Dict lookup `resp_lengths[code]`; `none` models a `KeyError`. -/
def respLength? (code : Nat) : Option Nat :=
  (resp_lengths.find? (fun p => p.1 == code)).map Prod.snd

/-- `_get_resp_bytes(raw)`: split one complete response frame (possibly empty)
off the front of the buffer.  `raw[0]` is read unconditionally (IndexError on
an empty buffer); with ≥ 3 bytes, `resp_lengths[raw[0]]` is looked up BEFORE
the error-sentinel test on `raw[1]` (KeyError when the first byte has no table
entry).  `raw[:n], raw[n:]` is modelled by `take`/`drop`. -/
def getRespBytes (raw : List Nat) : Except PyExc (List Nat × List Nat) :=
  match raw.get? 0 with
  | none => .error .indexErr
  | some b0 =>
    if b0 = INVALID_CMD then .ok (raw.take 1, raw.drop 1)
    else if 3 ≤ raw.length then
      match respLength? b0 with
      | none => .error .keyErr
      | some expected =>
        if raw.getD 1 0 = INVALID_DATA ∨ raw.getD 1 0 = SETTINGS_CONFLICT then
          .ok (raw.take 3, raw.drop 3)
        else if expected ≤ raw.length then
          .ok (raw.take expected, raw.drop expected)
        else .ok ([], raw)
    else .ok ([], raw)

/-- One read phase of `comm_loop`'s iteration: the freshly read bytes are
left-stripped of `0x00` padding, appended to the local buffer, and
`_get_resp_bytes` is applied ONCE; the extracted frame, when nonempty, is
put on the inbound queue.  Returns (new local buffer, frames pushed). -/
def commLoopReadPhase (buf new : List Nat) :
    Except PyExc (List Nat × List (List Nat)) :=
  let b := buf ++ new.dropWhile (fun x => x == 0)
  match getRespBytes b with
  | .error e => .error e
  | .ok (resp, rest) => .ok (rest, if resp.isEmpty then [] else [resp])

/-! ## Session (magneto/magstim.py) -/

/-- A parsed `Response`: the raw frame and the `_check_error` result computed
at construction. -/
structure PyResponse where
  raw : List Nat
  err : Option Int
deriving DecidableEq, Repr

/-- `Response.cmd`: the echoed command code `raw[0]` (frames put on the
inbound queue are nonempty, so the default is never hit there). -/
def PyResponse.cmd (r : PyResponse) : Nat := r.raw.getD 0 0

/-- Python truthiness of a `_check_error` result: `not resp.err` is true
exactly for `None` (and the never-produced `0`). -/
def pyFalsy : Option Int → Bool
  | none => true
  | some v => v == 0

/-- `Magstim._pump()`: pop every queued frame in arrival order, parse it into
a `Response` (.error when `_check_error` raises), and for each response with
falsy `err` overwrite the cached status with `MagstimStatus(resp.status)`,
i.e. with the frame's `raw[1]` byte.  Returns the parsed responses in order
and the final cache value. -/
def pump : List (List Nat) → Option Nat → Except PyExc (List PyResponse × Option Nat)
  | [], st => .ok ([], st)
  | raw :: rest, st =>
    match checkError raw with
    | .error e => .error e
    | .ok err =>
      let st' := if pyFalsy err then some (raw.getD 1 0) else st
      match pump rest st' with
      | .error e => .error e
      | .ok (out, stFinal) => .ok (⟨raw, err⟩ :: out, stFinal)

/-- A frame whose parsed response has a falsy error, i.e. one that causes
`_pump` to refresh the status cache. -/
def isGoodFrame (f : List Nat) : Bool :=
  match checkError f with
  | .ok e => pyFalsy e
  | .error _ => false

/-- `Magstim._wait_for_reply(cmd)`: scan each successive `_pump()` batch in
arrival order and return the first response with `resp.cmd == cmd or
resp.err == INVALID_CMD`; `none` models the `None` returned when the timeout
elapses (the batch list is the sequence of pump results seen before
timeout). -/
def waitForReply (cmd : Nat) : List (List PyResponse) → Option PyResponse
  | [] => none
  | batch :: rest =>
    match batch.find? (fun r => r.cmd == cmd || r.err == some (INVALID_CMD : Int)) with
    | some r => some r
    | none => waitForReply cmd rest

/-- Registry of command codes: the keys of `resp_lengths`. -/
def registryCodes : List Nat := resp_lengths.map Prod.fst

/-- Valid data payloads per registry command, as the device API layer builds
them (magstim.py): the three numeric-parameter commands take 3 ASCII digits
from `int_to_ascii(value, width=3)`; the other registry commands are sent
with no data, so `build_command` substitutes the pad byte. -/
def validData (c : Nat) (d : List Nat) : Bool :=
  if c = SET_POWER_A ∨ c = SET_POWER_B ∨ c = SET_PULSE_INTERVAL then
    d.length == 3 && d.all (fun b => 48 ≤ b && b ≤ 57)
  else d == []

/-! ## Helper lemmas -/

theorem take_drop_split (raw f r : List Nat) (n : Nat) (hne : raw ≠ [])
    (hf : raw.take n = f) (hr : raw.drop n = r) :
    (f = [] ∧ r = raw) ∨ (f ≠ [] ∧ f ++ r = raw) := by
  subst hf; subst hr
  by_cases hn : n = 0
  · subst hn; left; simp
  · right
    refine ⟨?_, List.take_append_drop n raw⟩
    rw [Ne, List.take_eq_nil_iff]
    push_neg
    exact ⟨hn, hne⟩

/-- Whatever `_get_resp_bytes` successfully returns is a clean split of the
buffer: either nothing was consumed (and the buffer is unchanged) or the
returned frame is a nonempty prefix and the rest is returned untouched. -/
theorem getRespBytes_split (raw f r : List Nat)
    (h : getRespBytes raw = .ok (f, r)) :
    (f = [] ∧ r = raw) ∨ (f ≠ [] ∧ f ++ r = raw) := by
  unfold getRespBytes at h
  cases hg : raw.get? 0 with
  | none => rw [hg] at h; exact absurd h (by simp)
  | some b0 =>
    rw [hg] at h
    have hne : raw ≠ [] := by
      intro hr
      subst hr
      simp at hg
    simp only at h
    split at h
    · simp only [Except.ok.injEq, Prod.mk.injEq] at h
      exact take_drop_split raw f r 1 hne h.1 h.2
    · split at h
      · cases hl : respLength? b0 with
        | none => rw [hl] at h; exact absurd h (by simp)
        | some expected =>
          rw [hl] at h
          simp only at h
          split at h
          · simp only [Except.ok.injEq, Prod.mk.injEq] at h
            exact take_drop_split raw f r 3 hne h.1 h.2
          · split at h
            · simp only [Except.ok.injEq, Prod.mk.injEq] at h
              exact take_drop_split raw f r expected hne h.1 h.2
            · simp only [Except.ok.injEq, Prod.mk.injEq] at h
              exact Or.inl ⟨h.1.symm, h.2.symm⟩
      · simp only [Except.ok.injEq, Prod.mk.injEq] at h
        exact Or.inl ⟨h.1.symm, h.2.symm⟩

/-! ## Claim theorems -/

/-- Claim C2: `_get_resp_bytes` never returns a partial frame — every
successful result is either the empty frame with the buffer unchanged, or a
nonempty frame that is a prefix of the buffer with the remainder returned
untouched; on `b"Q\x8a"` it returns the empty frame and the buffer, on
`b"Q\x8ac"` all 3 bytes and an empty remainder, and on `b"Q\x8acE"` the first
3 bytes leaving `b"E"`. -/
theorem c2_extract_whole_frames :
    (∀ raw f r : List Nat, getRespBytes raw = .ok (f, r) →
      (f = [] ∧ r = raw) ∨ (f ≠ [] ∧ f ++ r = raw)) ∧
    getRespBytes [81, 138] = .ok ([], [81, 138]) ∧
    getRespBytes [81, 138, 99] = .ok ([81, 138, 99], []) ∧
    getRespBytes [81, 138, 99, 69] = .ok ([81, 138, 99], [69]) :=
  ⟨getRespBytes_split, by decide, by decide, by decide⟩

/-- Witness for C2: the general split property applied to the concrete
buffer `b"Q\x8acE"`. -/
theorem c2_extract_whole_frames_witness :
    (([81, 138, 99] : List Nat) = [] ∧ ([69] : List Nat) = [81, 138, 99, 69]) ∨
    (([81, 138, 99] : List Nat) ≠ [] ∧
      ([81, 138, 99] : List Nat) ++ [69] = [81, 138, 99, 69]) :=
  c2_extract_whole_frames.1 [81, 138, 99, 69] [81, 138, 99] [69] (by decide)

/-- Claim C3 (code bug): on the empty buffer `_get_resp_bytes` raises
`IndexError` from the unconditional `raw[0]` read instead of returning
`(empty, buffer)`, which both the spec and the repository's own
`test_get_resp_bytes` (first assertion, `tst = b""`) require. -/
theorem c3_extract_empty_buffer_raises :
    getRespBytes [] = .error .indexErr ∧ getRespBytes [] ≠ .ok ([], []) := by
  decide

/-- Claim C1 (code bug): the invalid-data reply `b"@?o"` (the repository's
own test vector for the invalid-data classification) classifies as
`invalidData`, but `_validate_response` raises `CommandError` rather than
`DataError`: `INVALID_CMD` and `INVALID_DATA` are both `ord('?')`, so the
`DataError` branch of `_validate_response` is unreachable. -/
theorem c1_invalid_data_raises_command_err :
    classifyKind [64, 63, 111] = .ok (some .invalidData) ∧
    checkError [64, 63, 111] = .ok (some (INVALID_DATA : Int)) ∧
    validateResponse (some (INVALID_DATA : Int)) = some .commandErr ∧
    validateResponse (some (INVALID_DATA : Int)) ≠ some .dataErr := by
  decide

/-- Claim C4 counterexample: the buffer `[0x42, 0x3F, 0x00]` has 3 bytes, a
first byte (`SET_PULSE_FREQ`, absent from `resp_lengths`) different from the
unrecognized-command sentinel, and an invalid-data second byte, yet
`_get_resp_bytes` raises `KeyError` instead of splitting off 3 bytes: the
lookup `resp_lengths[raw[0]]` runs before the sentinel test, so a table entry
IS required. -/
theorem c4_sentinel_requires_table_entry :
    getRespBytes [66, 63, 0] = .error .keyErr ∧
    getRespBytes [66, 63, 0] ≠ .ok ([66, 63, 0], []) ∧
    (66 : Nat) ≠ INVALID_CMD ∧ (63 : Nat) = INVALID_DATA ∧
    respLength? 66 = none := by
  decide

/-- Claim C4 (amended): for every buffer of at least 3 bytes whose first byte
is not the unrecognized-command sentinel AND has an entry in the
expected-length table, a second byte equal to the invalid-data or
settings-conflict sentinel makes the extracted frame exactly the first 3
bytes, leaving the rest — regardless of the table entry's value. -/
theorem c4_amended_sentinel_three_bytes (raw : List Nat) (b0 n : Nat)
    (h0 : raw.get? 0 = some b0) (hb : b0 ≠ INVALID_CMD)
    (h3 : 3 ≤ raw.length) (ht : respLength? b0 = some n)
    (hs : raw.getD 1 0 = INVALID_DATA ∨ raw.getD 1 0 = SETTINGS_CONFLICT) :
    getRespBytes raw = .ok (raw.take 3, raw.drop 3) := by
  unfold getRespBytes
  rw [h0]
  simp only [if_neg hb, if_pos h3, ht, if_pos hs]

/-- Witness for the amended C4: a `GET_PARAMS`-coded buffer (table entry 12)
with an invalid-data second byte still yields a 3-byte frame. -/
theorem c4_amended_witness :
    getRespBytes [74, 63, 1, 2] = .ok ([74, 63, 1], [2]) := by
  have h := c4_amended_sentinel_three_bytes [74, 63, 1, 2] 74 12 (by decide)
    (by decide) (by decide) (by decide) (by decide)
  simpa using h

/-- Claim C5 counterexample: with an empty local buffer and freshly read
bytes holding two complete frames, one read phase pushes only the first
frame onto the inbound queue; a complete frame remains in the returned
buffer, contradicting "pushes every complete frame ... within that same
iteration, stopping only when no complete frame remains". -/
theorem c5_single_extraction_per_iteration :
    commLoopReadPhase [] [81, 138, 99, 81, 138, 99] =
      .ok ([81, 138, 99], [[81, 138, 99]]) ∧
    getRespBytes [81, 138, 99] = .ok ([81, 138, 99], []) ∧
    ([81, 138, 99] : List Nat) ≠ [] := by
  decide

/-- Claim C5 (amended): each read phase strips leading `0x00` padding from
the new bytes, appends them to the local buffer, applies the Frame Extractor
exactly once, and pushes at most one (nonempty) frame; the pushed frames
followed by the new buffer reassemble the stripped input, so any further
complete frames stay buffered for later iterations. -/
theorem c5_amended_one_frame_per_iteration (buf new b' : List Nat)
    (frames : List (List Nat))
    (h : commLoopReadPhase buf new = .ok (b', frames)) :
    frames.length ≤ 1 ∧ (∀ f ∈ frames, f ≠ []) ∧
    frames.foldr (· ++ ·) [] ++ b' = buf ++ new.dropWhile (fun x => x == 0) := by
  simp only [commLoopReadPhase] at h
  cases hg : getRespBytes (buf ++ new.dropWhile (fun x => x == 0)) with
  | error e => rw [hg] at h; exact absurd h (by simp)
  | ok pr =>
    obtain ⟨resp, rest⟩ := pr
    rw [hg] at h
    simp only [Except.ok.injEq, Prod.mk.injEq] at h
    obtain ⟨rfl, rfl⟩ := h
    rcases getRespBytes_split _ _ _ hg with ⟨rfl, hrest⟩ | ⟨hne, happ⟩
    · simp [hrest]
    · have hemp : resp.isEmpty = false := by
        simpa [List.isEmpty_iff] using hne
      refine ⟨by simp [hemp], by simp [hemp, hne], ?_⟩
      simpa [hemp] using happ

/-- Witness for the amended C5: one iteration on null-padded input carrying
one complete frame plus a trailing fragment. -/
theorem c5_amended_witness :
    ([[81, 138, 99]] : List (List Nat)).length ≤ 1 ∧
    (∀ f ∈ ([[81, 138, 99]] : List (List Nat)), f ≠ []) ∧
    ([[81, 138, 99]] : List (List Nat)).foldr (· ++ ·) [] ++ [69] =
      [] ++ ([0, 81, 138, 99, 69] : List Nat).dropWhile (fun x => x == 0) :=
  c5_amended_one_frame_per_iteration [] [0, 81, 138, 99, 69] [69]
    [[81, 138, 99]] (by decide)

/-- Claim C9: the enable-remote-control command with default pad data encodes
to `b"Q@n"` and set-base-mode with the armed mode byte encodes to `b"EBx"`;
in each case the final byte is the one's complement, low 8 bits, of the sum
of the two preceding bytes, i.e. `255 - sum % 256`. -/
theorem c9_known_encodings :
    build_command ENABLE_REMOTE_CTRL [] = .ok [81, 64, 110] ∧
    (110 : Nat) = 255 - (81 + 64) % 256 ∧
    get_mode_byte MODE_ARMED = 66 ∧
    build_command SET_BASE_MODE [get_mode_byte MODE_ARMED] = .ok [69, 66, 120] ∧
    (120 : Nat) = 255 - (69 + 66) % 256 := by
  decide

/-- Claim C6 counterexample: awaiting command `0x45`, a drained invalid-data
reply echoing the keepalive code `0x51` (classification `invalidData`, not
`unrecognizedCommand`, echoed code different from the awaited one) is
returned rather than skipped: `resp.err == INVALID_CMD` also matches the
invalid-data error, whose sentinel shares the value `ord('?')`. -/
theorem c6_foreign_invalid_data_not_skipped :
    checkError [81, 63, 111] = .ok (some (INVALID_DATA : Int)) ∧
    classifyKind [81, 63, 111] = .ok (some .invalidData) ∧
    classifyKind [81, 63, 111] ≠ .ok (some .unrecognizedCommand) ∧
    (⟨[81, 63, 111], some (INVALID_DATA : Int)⟩ : PyResponse).cmd ≠ 69 ∧
    waitForReply 69 [[⟨[81, 63, 111], some (INVALID_DATA : Int)⟩]] =
      some ⟨[81, 63, 111], some (INVALID_DATA : Int)⟩ := by
  decide

/-- Claim C6 (amended): `_wait_for_reply` returns the first drained response,
in arrival order, whose echoed command code equals the awaited code or whose
error VALUE equals the shared `ord('?')` sentinel — which therefore also
matches invalid-data replies echoing a different command; every other
response is silently skipped, and the absent result is returned when no
polled batch contains a match before the timeout. -/
theorem c6_amended_first_match (cmd : Nat) (batches : List (List PyResponse)) :
    waitForReply cmd batches =
      batches.flatten.find?
        (fun r => r.cmd == cmd || r.err == some (INVALID_CMD : Int)) ∧
    (waitForReply cmd batches = none ↔
      ∀ r ∈ batches.flatten,
        ¬(r.cmd = cmd ∨ r.err = some (INVALID_CMD : Int))) := by
  have key : ∀ bs : List (List PyResponse),
      waitForReply cmd bs = bs.flatten.find?
        (fun r => r.cmd == cmd || r.err == some (INVALID_CMD : Int)) := by
    intro bs
    induction bs with
    | nil => rfl
    | cons b rest ih =>
      rw [List.flatten_cons, List.find?_append]
      cases hb : b.find?
          (fun r => r.cmd == cmd || r.err == some (INVALID_CMD : Int)) with
      | some r => simp only [waitForReply, hb]; rfl
      | none => simp only [waitForReply, hb, Option.none_or]; exact ih
  refine ⟨key batches, ?_⟩
  rw [key batches, List.find?_eq_none]
  simp only [Bool.or_eq_true, beq_iff_eq]

/-- Witness for the amended C6: a keepalive echo for command `0x51` is
skipped while awaiting `0x45`, and the matching reply later in the poll
window is returned. -/
theorem c6_amended_witness :
    waitForReply 69 [[⟨[81, 138, 36], none⟩], [⟨[69, 66, 120], none⟩]] =
      some ⟨[69, 66, 120], none⟩ :=
  (c6_amended_first_match 69
      [[⟨[81, 138, 36], none⟩], [⟨[69, 66, 120], none⟩]]).1.trans (by decide)

/-! ## Pump (status cache) -/

theorem getLast?_cons_elim {α : Type} (a : α) (l : List α) :
    (a :: l).getLast? = some (l.getLast?.getD a) :=
  List.getLast?_cons

/-- Claim C7: `_pump` pops every queued frame and returns the parsed
responses in arrival order; exactly the responses with an absent (falsy)
error refresh the cached status with their `raw[1]` status byte, so the
final cache holds the status byte of the last error-free response drained,
and is unchanged when every drained response carries an error. -/
theorem c7_pump_status_last_good (frames : List (List Nat))
    (st st' : Option Nat) (out : List PyResponse)
    (h : pump frames st = .ok (out, st')) :
    out.map PyResponse.raw = frames ∧
    (∀ r ∈ out, checkError r.raw = .ok r.err) ∧
    st' = ((frames.filter isGoodFrame).getLast?).elim st
      (fun f => some (f.getD 1 0)) := by
  induction frames generalizing st st' out with
  | nil =>
    simp only [pump, Except.ok.injEq, Prod.mk.injEq] at h
    obtain ⟨rfl, rfl⟩ := h
    simp [Option.elim]
  | cons raw rest ih =>
    simp only [pump] at h
    cases hc : checkError raw with
    | error e => rw [hc] at h; exact absurd h (by simp)
    | ok err =>
      rw [hc] at h
      simp only at h
      cases hp : pump rest (if pyFalsy err then some (raw.getD 1 0) else st) with
      | error e => rw [hp] at h; exact absurd h (by simp)
      | ok p =>
        obtain ⟨out1, st1⟩ := p
        rw [hp] at h
        simp only [Except.ok.injEq, Prod.mk.injEq] at h
        obtain ⟨rfl, rfl⟩ := h
        obtain ⟨hmap, herr, hst⟩ := ih _ _ _ hp
        have hgood : isGoodFrame raw = pyFalsy err := by
          simp [isGoodFrame, hc]
        refine ⟨by simp [hmap], ?_, ?_⟩
        · intro r hr
          rcases List.mem_cons.mp hr with rfl | hr
          · exact hc
          · exact herr r hr
        · rw [List.filter_cons, hgood]
          by_cases hf : pyFalsy err = true
          · rw [if_pos hf, getLast?_cons_elim, hst, if_pos hf]
            cases h2 : (rest.filter isGoodFrame).getLast? with
            | none => simp [Option.elim]
            | some g => simp [Option.elim]
          · rw [if_neg hf, hst, if_neg hf]

/-- Witness for C7: draining one good frame then an error frame leaves the
cache holding the good frame's status byte `0x8a`. -/
theorem c7_pump_witness :
    (([⟨[81, 138, 36], none⟩, ⟨[63], some (INVALID_CMD : Int)⟩] :
        List PyResponse).map PyResponse.raw = [[81, 138, 36], [63]]) ∧
    (∀ r ∈ ([⟨[81, 138, 36], none⟩, ⟨[63], some (INVALID_CMD : Int)⟩] :
        List PyResponse), checkError r.raw = .ok r.err) ∧
    (some 138 : Option Nat) =
      ((([[81, 138, 36], [63]] : List (List Nat)).filter isGoodFrame).getLast?).elim
        none (fun f => some (f.getD 1 0)) :=
  c7_pump_status_last_good [[81, 138, 36], [63]] none (some 138)
    [⟨[81, 138, 36], none⟩, ⟨[63], some (INVALID_CMD : Int)⟩] (by decide)

/-! ## Codec round-trip (claim C8) -/

theorem sum_four (c a b e : Nat) :
    ([c, a, b, e] : List Nat).sum = c + a + b + e := by
  simp only [List.sum_cons, List.sum_nil]
  omega

theorem validData_digits (c : Nat) (d : List Nat)
    (hcd : c = SET_POWER_A ∨ c = SET_POWER_B ∨ c = SET_PULSE_INTERVAL)
    (hd : validData c d = true) :
    ∃ a b e, d = [a, b, e] ∧ (48 ≤ a ∧ a ≤ 57) ∧ (48 ≤ b ∧ b ≤ 57) ∧
      (48 ≤ e ∧ e ≤ 57) := by
  unfold validData at hd
  rw [if_pos hcd] at hd
  simp only [Bool.and_eq_true, beq_iff_eq, List.all_eq_true,
    decide_eq_true_eq] at hd
  obtain ⟨hlen, hall⟩ := hd
  obtain ⟨a, b, e, rfl⟩ := List.length_eq_three.mp hlen
  exact ⟨a, b, e, rfl, hall a (by simp), hall b (by simp), hall e (by simp)⟩

/-- Building a numeric-parameter command from three ASCII digits yields a
5-byte frame: the checksum is ASCII-encodable, the frame classifies as
error-free, and its last byte is the checksum of the first four. -/
theorem digit_command_frame (c a b e : Nat)
    (hc : c = SET_POWER_A ∨ c = SET_POWER_B ∨ c = SET_PULSE_INTERVAL)
    (ha : 48 ≤ a ∧ a ≤ 57) (hb : 48 ≤ b ∧ b ≤ 57) (he : 48 ≤ e ∧ e ≤ 57) :
    build_command c [a, b, e] = .ok [c, a, b, e, 255 - (c + a + b + e)] ∧
    checkError [c, a, b, e, 255 - (c + a + b + e)] = .ok none ∧
    classifyKind [c, a, b, e, 255 - (c + a + b + e)] = .ok none ∧
    calculate_crc ([c, a, b, e, 255 - (c + a + b + e)] : List Nat).dropLast =
      .ok (([c, a, b, e, 255 - (c + a + b + e)] : List Nat).getLastD 0) := by
  have hc' : c = 64 ∨ c = 65 ∨ c = 67 := by
    simpa [SET_POWER_A, SET_POWER_B, SET_PULSE_INTERVAL] using hc
  have hrange : 128 ≤ c + a + b + e ∧ c + a + b + e < 256 := by omega
  have hcrc : calculate_crc [c, a, b, e] = .ok (255 - (c + a + b + e)) := by
    simp only [calculate_crc, sum_four, Nat.mod_eq_of_lt hrange.2]
    rw [if_pos (by omega)]
  have hdrop : ([c, a, b, e, 255 - (c + a + b + e)] : List Nat).dropLast
      = [c, a, b, e] := rfl
  have hlast : ([c, a, b, e, 255 - (c + a + b + e)] : List Nat).getLastD 0
      = 255 - (c + a + b + e) := rfl
  have h63 : ¬ c = INVALID_CMD := by simp only [INVALID_CMD]; omega
  have ha63 : ¬ a = INVALID_DATA := by simp only [INVALID_DATA]; omega
  have ha83 : ¬ a = SETTINGS_CONFLICT := by simp only [SETTINGS_CONFLICT]; omega
  have hne : ¬ (255 - (c + a + b + e) ≠ 255 - (c + a + b + e)) := by simp
  refine ⟨?_, ?_, ?_, ?_⟩
  · simp only [build_command]
    rw [if_neg (show ¬ 128 ≤ c by omega),
      if_neg (show ¬ ([a, b, e] : List Nat) = [] by simp), hcrc]
    rfl
  · simp only [checkError, List.get?, hdrop, hcrc, hlast]
    rw [if_neg h63, if_neg ha63, if_neg ha83, if_neg hne]
  · simp only [classifyKind, List.get?, hdrop, hcrc, hlast]
    rw [if_neg h63, if_neg ha63, if_neg ha83, if_neg hne]
  · rw [hdrop, hlast]
    exact hcrc

/-- Claim C8: for every command code in the fixed registry and every valid
payload (three ASCII digits for the numeric-parameter commands, none — hence
the default pad byte — for the rest), encoding succeeds, the encoded frame
classifies as error-free, and the checksum recomputed over all bytes of the
frame but the last equals the last byte. -/
theorem c8_registry_encodings_clean (c : Nat) (d : List Nat)
    (hc : c ∈ registryCodes) (hd : validData c d = true) :
    ∃ f, build_command c d = .ok f ∧
      checkError f = .ok none ∧ classifyKind f = .ok none ∧
      calculate_crc f.dropLast = .ok (f.getLastD 0) := by
  have hc' : c = 64 ∨ c = 65 ∨ c = 67 ∨ c = 69 ∨ c = 81 ∨ c = 82 ∨ c = 89 ∨
      c = 90 ∨ c = 74 := by
    simpa [registryCodes, resp_lengths, SET_POWER_A, SET_POWER_B,
      SET_PULSE_INTERVAL, SET_BASE_MODE, ENABLE_REMOTE_CTRL,
      DISABLE_REMOTE_CTRL, ENABLE_HIRES_TIME, DISABLE_HIRES_TIME,
      GET_PARAMS] using hc
  have digits : ∀ c', c' = SET_POWER_A ∨ c' = SET_POWER_B ∨
      c' = SET_PULSE_INTERVAL → validData c' d = true →
      ∃ f, build_command c' d = .ok f ∧
        checkError f = .ok none ∧ classifyKind f = .ok none ∧
        calculate_crc f.dropLast = .ok (f.getLastD 0) := by
    intro c' hcd hd'
    obtain ⟨a, b, e, rfl, ha, hb, he⟩ := validData_digits c' d hcd hd'
    obtain ⟨h1, h2, h3, h4⟩ := digit_command_frame c' a b e hcd ha hb he
    exact ⟨_, h1, h2, h3, h4⟩
  rcases hc' with rfl | rfl | rfl | rfl | rfl | rfl | rfl | rfl | rfl
  · exact digits 64 (by simp [SET_POWER_A]) hd
  · exact digits 65 (by simp [SET_POWER_B]) hd
  · exact digits 67 (by simp [SET_PULSE_INTERVAL]) hd
  · obtain rfl : d = [] := by
      simpa [validData, SET_POWER_A, SET_POWER_B, SET_PULSE_INTERVAL] using hd
    exact ⟨[69, 64, 122], by decide, by decide, by decide, by decide⟩
  · obtain rfl : d = [] := by
      simpa [validData, SET_POWER_A, SET_POWER_B, SET_PULSE_INTERVAL] using hd
    exact ⟨[81, 64, 110], by decide, by decide, by decide, by decide⟩
  · obtain rfl : d = [] := by
      simpa [validData, SET_POWER_A, SET_POWER_B, SET_PULSE_INTERVAL] using hd
    exact ⟨[82, 64, 109], by decide, by decide, by decide, by decide⟩
  · obtain rfl : d = [] := by
      simpa [validData, SET_POWER_A, SET_POWER_B, SET_PULSE_INTERVAL] using hd
    exact ⟨[89, 64, 102], by decide, by decide, by decide, by decide⟩
  · obtain rfl : d = [] := by
      simpa [validData, SET_POWER_A, SET_POWER_B, SET_PULSE_INTERVAL] using hd
    exact ⟨[90, 64, 101], by decide, by decide, by decide, by decide⟩
  · obtain rfl : d = [] := by
      simpa [validData, SET_POWER_A, SET_POWER_B, SET_PULSE_INTERVAL] using hd
    exact ⟨[74, 64, 117], by decide, by decide, by decide, by decide⟩

/-- Witness for C8: setting power A to 95% (`data = b"095"`) encodes to
`[0x40, 48, 57, 53, 33]` with a clean classification and a matching
checksum. -/
theorem c8_registry_witness :
    build_command 64 [48, 57, 53] = .ok [64, 48, 57, 53, 33] ∧
    checkError [64, 48, 57, 53, 33] = .ok none ∧
    classifyKind [64, 48, 57, 53, 33] = .ok none ∧
    calculate_crc ([64, 48, 57, 53, 33] : List Nat).dropLast =
      .ok (([64, 48, 57, 53, 33] : List Nat).getLastD 0) := by
  obtain ⟨f, h1, h2, h3, h4⟩ :=
    c8_registry_encodings_clean 64 [48, 57, 53] (by decide) (by decide)
  have hf : f = [64, 48, 57, 53, 33] := by
    have h5 : Except.ok f = Except.ok ([64, 48, 57, 53, 33] : List Nat) :=
      h1.symm.trans (by decide)
    simpa using h5
  subst hf
  exact ⟨h1, h2, h3, h4⟩

/-! ## Frame-shape safety (claim C10) -/

/-- Every entry of the expected-length table is at least 3. -/
theorem respLength?_min (c n : Nat) (h : respLength? c = some n) : 3 ≤ n := by
  unfold respLength? at h
  cases hf : resp_lengths.find? (fun p => p.1 == c) with
  | none => rw [hf] at h; simp at h
  | some p =>
    rw [hf, Option.map_some'] at h
    obtain rfl : p.2 = n := by simpa using h
    have hmem := List.mem_of_find?_eq_some hf
    simp only [resp_lengths, List.mem_cons, List.mem_singleton,
      List.not_mem_nil, or_false] at hmem
    rcases hmem with rfl | rfl | rfl | rfl | rfl | rfl | rfl | rfl | rfl <;>
      decide

/-- `calculate_crc` only ever fails with the encoding exception. -/
theorem calculate_crc_err (l : List Nat) (e : PyExc)
    (h : calculate_crc l = .error e) : e = .encodeErr := by
  unfold calculate_crc at h
  split at h
  · exact absurd h (by simp)
  · simpa using h.symm

/-- On a frame of at least 2 bytes, neither `_check_error` nor the spec's
classifier ever raises an index error: both byte positions they read exist,
and the trailing-checksum read is on a nonempty list. -/
theorem checkError_long_no_index (a b : Nat) (t : List Nat) :
    checkError (a :: b :: t) ≠ .error .indexErr ∧
    classifyKind (a :: b :: t) ≠ .error .indexErr := by
  constructor
  · simp only [checkError, List.get?]
    split
    · simp
    · split
      · simp
      · split
        · simp
        · cases hcc : calculate_crc ((a :: b :: t).dropLast) with
          | error e =>
            rw [calculate_crc_err _ _ hcc]
            simp
          | ok expected =>
            dsimp only
            split <;> simp
  · simp only [classifyKind, List.get?]
    split
    · simp
    · split
      · simp
      · split
        · simp
        · cases hcc : calculate_crc ((a :: b :: t).dropLast) with
          | error e =>
            rw [calculate_crc_err _ _ hcc]
            simp
          | ok expected =>
            dsimp only
            split <;> simp

/-- Every nonempty frame `_get_resp_bytes` yields is the 1-byte
unrecognized-command frame or at least 3 bytes long. -/
theorem getRespBytes_shape (raw f r : List Nat)
    (h : getRespBytes raw = .ok (f, r)) (hne : f ≠ []) :
    f = [INVALID_CMD] ∨ 3 ≤ f.length := by
  unfold getRespBytes at h
  cases hg : raw.get? 0 with
  | none => rw [hg] at h; exact absurd h (by simp)
  | some b0 =>
    rw [hg] at h
    simp only at h
    obtain ⟨t, rfl⟩ : ∃ t, raw = b0 :: t := by
      cases raw with
      | nil => simp at hg
      | cons x t =>
        simp only [List.get?, Option.some.injEq] at hg
        exact ⟨t, by rw [hg]⟩
    split at h
    · rename_i hb0
      left
      simp only [Except.ok.injEq, Prod.mk.injEq] at h
      rw [← h.1, hb0]
      rfl
    · split at h
      · rename_i hlen3
        cases hl : respLength? b0 with
        | none => rw [hl] at h; exact absurd h (by simp)
        | some expected =>
          rw [hl] at h
          simp only at h
          split at h
          · right
            simp only [Except.ok.injEq, Prod.mk.injEq] at h
            rw [← h.1, List.length_take]
            omega
          · split at h
            · rename_i hexp
              right
              simp only [Except.ok.injEq, Prod.mk.injEq] at h
              rw [← h.1, List.length_take]
              have := respLength?_min b0 expected hl
              omega
            · simp only [Except.ok.injEq, Prod.mk.injEq] at h
              exact absurd h.1.symm hne
      · simp only [Except.ok.injEq, Prod.mk.injEq] at h
        exact absurd h.1.symm hne

/-- Claim C10: every nonempty frame the extractor returns is either exactly
the 1-byte unrecognized-command frame or at least 3 bytes long; consequently
the error classifiers never read an out-of-range byte position on it, and
the status-byte read `raw[1]` (performed only for responses with a falsy
error) is always in range. -/
theorem c10_extracted_frames_parse_safely (raw f r : List Nat)
    (h : getRespBytes raw = .ok (f, r)) (hne : f ≠ []) :
    (f = [INVALID_CMD] ∨ 3 ≤ f.length) ∧
    checkError f ≠ .error .indexErr ∧
    classifyKind f ≠ .error .indexErr ∧
    (∀ e, checkError f = .ok e → pyFalsy e = true → 2 ≤ f.length) := by
  rcases getRespBytes_shape raw f r h hne with hf | hlen
  · subst hf
    refine ⟨Or.inl rfl, by decide, by decide, ?_⟩
    intro e he hfal
    rw [show checkError [INVALID_CMD] = .ok (some (INVALID_CMD : Int))
      from by decide] at he
    simp only [Except.ok.injEq] at he
    subst he
    exact absurd hfal (by decide)
  · obtain ⟨a, b, t, rfl⟩ : ∃ a b t, f = a :: b :: t := by
      cases f with
      | nil => exact absurd hlen (by simp)
      | cons a f' =>
        cases f' with
        | nil => exact absurd hlen (by simp)
        | cons b t => exact ⟨a, b, t, rfl⟩
    obtain ⟨h1, h2⟩ := checkError_long_no_index a b t
    exact ⟨Or.inr hlen, h1, h2, fun _ _ _ => by simp⟩

/-- Witness for C10: the 1-byte unrecognized-command frame extracted from
the buffer `[0x3F, 0x46]`. -/
theorem c10_extracted_frames_witness :
    (([63] : List Nat) = [INVALID_CMD] ∨ 3 ≤ ([63] : List Nat).length) ∧
    checkError [63] ≠ .error .indexErr ∧
    classifyKind [63] ≠ .error .indexErr ∧
    (∀ e, checkError [63] = .ok e → pyFalsy e = true →
      2 ≤ ([63] : List Nat).length) :=
  c10_extracted_frames_parse_safely [63, 70] [63] [70] (by decide) (by decide)

end Magneto
